import Mathlib

/-!
Verification of the project-renamer repository (src/project_renamer.py,
src/file_handlers.py, src/utils.py) against its natural-language
specification.

Strings are modelled as lists of characters; the Python string methods
(lower, upper, title, capitalize, isupper, islower, istitle, replace, in)
and the regular-expression substitutions used by the source are embedded
as executable Lean functions, restricted to the ASCII character classes
the regular expressions in the source mention literally ([A-Z], [a-z],
[0-9], the \s class and the word class \w).
-/

/-- Character test for the regex class [A-Z] (also the ASCII case of the
Python isupper test on a single character). -/
def isUpCh (c : Char) : Bool :=
  decide (65 ≤ c.toNat ∧ c.toNat ≤ 90)

/-- Character test for the regex class [a-z]. -/
def isLowCh (c : Char) : Bool :=
  decide (97 ≤ c.toNat ∧ c.toNat ≤ 122)

/-- Character test for the regex class [0-9]. -/
def isDigitCh (c : Char) : Bool :=
  decide (48 ≤ c.toNat ∧ c.toNat ≤ 57)

/-- Cased (letter) characters, ASCII. -/
def isAlphaCh (c : Char) : Bool :=
  isUpCh c || isLowCh c

/-- Alphanumeric characters, ASCII. -/
def isAsciiAlnum (c : Char) : Bool :=
  isDigitCh c || isAlphaCh c

/-- Character test for the regex class \w (letters, digits, underscore;
code point 95 is the underscore). -/
def isWordCh (c : Char) : Bool :=
  isAsciiAlnum c || decide (c.toNat = 95)

/-- Character test for the regex class \s: blank (32), tab (9),
newline (10), vertical tab (11), form feed (12), carriage return (13). -/
def isPyWs (c : Char) : Bool :=
  decide (c.toNat = 32 ∨ c.toNat = 9 ∨ c.toNat = 10 ∨ c.toNat = 11 ∨ c.toNat = 12 ∨ c.toNat = 13)

/-- Character test for the separator class [-_\s] used by the case
converters (45 is the hyphen, 95 the underscore). -/
def isSepCh (c : Char) : Bool :=
  decide (c.toNat = 45 ∨ c.toNat = 95) || isPyWs c

/-- Single-quote character (code point 39), written via its code point
so that no quote literal appears in the file. -/
def squoteCh : Char :=
  Char.ofNat 39

/-- Character test for the regex class of the two quote characters
(34 is the double quote, 39 the single quote). -/
def isQuoteCh (c : Char) : Bool :=
  decide (c.toNat = 34 ∨ c.toNat = 39)

/-- ASCII lowercasing of one character, as the Python lower method acts
on ASCII letters. -/
def lowerCh (c : Char) : Char :=
  if 65 ≤ c.toNat ∧ c.toNat ≤ 90 then Char.ofNat (c.toNat + 32) else c

/-- ASCII uppercasing of one character, as the Python upper method acts
on ASCII letters. -/
def upperCh (c : Char) : Char :=
  if 97 ≤ c.toNat ∧ c.toNat ≤ 122 then Char.ofNat (c.toNat - 32) else c

/-- Python str.lower over a whole string (ASCII model). -/
def pyLower (s : List Char) : List Char :=
  s.map lowerCh

/-- Python str.upper over a whole string (ASCII model). -/
def pyUpper (s : List Char) : List Char :=
  s.map upperCh

/-- Python str.capitalize: first character uppercased, the rest
lowercased. -/
def pyCapitalize : List Char → List Char
  | [] => []
  | c :: rest => upperCh c :: pyLower rest

/-- Helper for the Python str.title method: the Bool records whether the
previous character was cased; a character following an uncased one is
uppercased, a character following a cased one is lowercased. -/
def pyTitleAux : Bool → List Char → List Char
  | _, [] => []
  | prevCased, c :: rest =>
      (if prevCased then lowerCh c else upperCh c) :: pyTitleAux (isAlphaCh c) rest

/-- Python str.title (ASCII model). -/
def pyTitle (s : List Char) : List Char :=
  pyTitleAux false s

/-- Python str.isupper: at least one cased character and no lowercase
character. -/
def pyIsUpper (s : List Char) : Bool :=
  s.any isAlphaCh && s.all (fun c => !(isLowCh c))

/-- Python str.islower: at least one cased character and no uppercase
character. -/
def pyIsLower (s : List Char) : Bool :=
  s.any isAlphaCh && s.all (fun c => !(isUpCh c))

/-- Helper for Python str.istitle: uppercase letters may only follow an
uncased character, lowercase letters may only follow a cased one. -/
def pyIsTitleAux : Bool → List Char → Bool
  | _, [] => true
  | prevCased, c :: rest =>
      if isUpCh c then !prevCased && pyIsTitleAux true rest
      else if isLowCh c then prevCased && pyIsTitleAux true rest
      else pyIsTitleAux false rest

/-- Python str.istitle: the position test above plus at least one cased
character. -/
def pyIsTitle (s : List Char) : Bool :=
  s.any isAlphaCh && pyIsTitleAux false s

/-!
Case converters of ProjectRenamer (src/project_renamer.py lines 127-138)
and of utils.convert_case: _to_pascal_case, _to_snake_case,
_to_kebab_case.
-/

/-- Helper mirroring re.split with the pattern [-_\s]+: the accumulator
holds the current fragment reversed, the Bool records whether the
previous character was a separator (a separator run is one delimiter).
Leading and trailing runs yield empty fragments, exactly as re.split
produces them. -/
def splitSepsAux : List Char → Bool → List Char → List (List Char)
  | acc, _, [] => [acc.reverse]
  | acc, false, c :: rest =>
      if isSepCh c then acc.reverse :: splitSepsAux [] true rest
      else splitSepsAux (c :: acc) false rest
  | acc, true, c :: rest =>
      if isSepCh c then splitSepsAux acc true rest
      else splitSepsAux [c] false rest

/-- Python re.split of [-_\s]+ over a string. -/
def splitSeps (s : List Char) : List (List Char) :=
  splitSepsAux [] false s

/-- ProjectRenamer._to_pascal_case: split on separator runs, capitalize
each fragment, concatenate. Empty fragments capitalize to the empty
string, so they disappear in the join exactly as in the source. -/
def to_pascal_case (text : List Char) : List Char :=
  ((splitSeps text).map pyCapitalize).flatten

/-- First substitution of _to_snake_case:
re.sub of (.)([A-Z][a-z]+) by the two groups joined with an underscore.
The Nat argument counts characters still to copy verbatim from the tail
of the previous match (the greedy [a-z]+ run); the dot of the pattern
matches any character except the newline. Matches of re.sub are found
left to right and do not overlap; scanning resumes after the lowercase
run, which this skip-count reproduces exactly. -/
def snake1Aux : Nat → List Char → List Char
  | _, [] => []
  | k+1, c :: rest => c :: snake1Aux k rest
  | 0, c :: d :: e :: rest2 =>
      if c != '\n' && isUpCh d && isLowCh e then
        c :: '_' :: d :: e :: snake1Aux ((rest2.takeWhile isLowCh).length) rest2
      else
        c :: snake1Aux 0 (d :: e :: rest2)
  | 0, c :: rest => c :: snake1Aux 0 rest

/-- Second substitution of _to_snake_case:
re.sub of ([a-z0-9])([A-Z]) by the groups joined with an underscore.
A match consumes two characters, but since an uppercase character can
never begin a match, inserting an underscore between every adjacent
lower-or-digit/upper pair is exactly the non-overlapping substitution. -/
def snake2 : List Char → List Char
  | c :: d :: rest =>
      if (isLowCh c || isDigitCh c) && isUpCh d then c :: '_' :: snake2 (d :: rest)
      else c :: snake2 (d :: rest)
  | s => s

/-- ProjectRenamer._to_snake_case: the two substitutions followed by
str.lower. -/
def to_snake_case (text : List Char) : List Char :=
  pyLower (snake2 (snake1Aux 0 text))

/-- Helper mirroring re.sub of [-_\s]+ by a single hyphen: the Bool
records whether we are inside a separator run already replaced. -/
def kebabAux : Bool → List Char → List Char
  | _, [] => []
  | inRun, c :: rest =>
      if isSepCh c then
        if inRun then kebabAux true rest else '-' :: kebabAux true rest
      else c :: kebabAux false rest

/-- ProjectRenamer._to_kebab_case: lowercase, then collapse separator
runs to single hyphens. -/
def to_kebab_case (text : List Char) : List Char :=
  kebabAux false (pyLower text)

/-!
Content rewriting: ProjectRenamer._compile_patterns (lines 90-108) and
the substitution loop of _modify_file_content (lines 321-345). The
default configuration has case_sensitive = False and
preserve_case = False, so each compiled pattern is the escaped literal
with the IGNORECASE flag and the substitution inserts new_name verbatim.
-/

/-- Character comparison used by a compiled pattern: exact when
case_sensitive, otherwise the IGNORECASE comparison (ASCII case fold). -/
def chEq (caseSensitive : Bool) (a b : Char) : Bool :=
  if caseSensitive then a == b else lowerCh a == lowerCh b

/-- Test whether the pattern matches at the head of the string. -/
def matchesHere (eqc : Char → Char → Bool) : List Char → List Char → Bool
  | [], _ => true
  | _ :: _, [] => false
  | p :: ps, c :: cs => eqc p c && matchesHere eqc ps cs

/-- Test whether the pattern matches anywhere in the string; an empty
pattern matches everywhere, also in the empty string. -/
def occursIn (eqc : Char → Char → Bool) (pat : List Char) : List Char → Bool
  | [] => pat.isEmpty
  | c :: rest => matchesHere eqc pat (c :: rest) || occursIn eqc pat rest

/-- Python substring membership (the in operator on str) and the basis
of str.find. -/
def containsSeq (pat s : List Char) : Bool :=
  occursIn (fun a b => a == b) pat s

/-- Substitution of an empty pattern: re.sub and str.replace with an
empty needle insert the replacement at every position boundary. -/
def emptyPatRepl (new : List Char) : List Char → List Char
  | [] => new
  | c :: rest => new ++ c :: emptyPatRepl new rest

/-- Left-to-right non-overlapping substitution of a nonempty literal
pattern. The Nat counts characters of a just-replaced match still to be
dropped from the input (the match is consumed, the replacement was
already emitted), which makes the recursion structural. -/
def reSubPat (eqc : Char → Char → Bool) (pat new : List Char) : Nat → List Char → List Char
  | _, [] => []
  | k+1, _ :: rest => reSubPat eqc pat new k rest
  | 0, c :: rest =>
      if matchesHere eqc pat (c :: rest) then
        new ++ reSubPat eqc pat new (pat.length - 1) rest
      else c :: reSubPat eqc pat new 0 rest

/-- Substitution of one literal pattern over a string: re.sub of an
escaped literal, and (with exact character comparison) Python
str.replace. -/
def pyReSub (eqc : Char → Char → Bool) (pat new s : List Char) : List Char :=
  match pat with
  | [] => emptyPatRepl new s
  | _ :: _ => reSubPat eqc pat new 0 s

/-- Python str.replace (exact, non-overlapping, left to right). -/
def strReplace (s old new : String) : String :=
  String.mk (pyReSub (fun a b => a == b) old.data new.data s.data)

/-- Pattern texts compiled by _compile_patterns, in source order: the
old name verbatim and its PascalCase, snake_case and kebab-case forms. -/
def compile_pattern_targets (old : List Char) : List (List Char) :=
  [old, to_pascal_case old, to_snake_case old, to_kebab_case old]

/-- Substitution loop of _modify_file_content: each compiled pattern is
applied in order to the output of the previous one, substituting the new
name for every match. -/
def modify_file_content (caseSensitive : Bool) (old new content : List Char) : List Char :=
  (compile_pattern_targets old).foldl (fun acc pat => pyReSub (chEq caseSensitive) pat new acc) content

/-!
Name resolution: ProjectRenamer._generate_new_name (lines 347-366) and
ProjectRenamer._should_rename_directory (lines 203-211).
-/

/-- ProjectRenamer._generate_new_name: exact match, then the three
case-folded comparisons (lower, upper, title), then the snake_case and
PascalCase comparisons, else the new name verbatim. -/
def generate_new_name (old_name new_name original_name : List Char) : List Char :=
  if original_name = old_name then new_name
  else if pyLower original_name = pyLower old_name then pyLower new_name
  else if pyUpper original_name = pyUpper old_name then pyUpper new_name
  else if pyTitle original_name = pyTitle old_name then pyTitle new_name
  else if to_snake_case original_name = to_snake_case old_name then to_snake_case new_name
  else if to_pascal_case original_name = to_pascal_case old_name then to_pascal_case new_name
  else new_name

/-- ProjectRenamer._should_rename_directory, faithfully including line
209 of the source, which compares the PascalCase form of the directory
name with itself rather than with the old name. -/
def should_rename_directory (old_name name : List Char) : Bool :=
  if name = old_name then true
  else if to_snake_case name = to_snake_case old_name then true
  else if to_pascal_case name = to_pascal_case name then true
  else false

/-!
Case-preserving replacement: utils.preserve_case (src/utils.py lines
191-224). The argument order of the source is (original, replacement).
-/

/-- Per-position case transfer of the mixed branch of
utils.preserve_case: an uppercase original character uppercases the
replacement character, a lowercase one lowercases it, and the digit
branch and the final branch of the source both keep it unchanged. -/
def mixed_case_char (c r : Char) : Char :=
  if isUpCh c then upperCh r
  else if isLowCh c then lowerCh r
  else if isDigitCh c then r
  else r

/-- Mixed-case loop of utils.preserve_case: walk the original; while
replacement characters remain, emit the case-transferred replacement
character; once the replacement is exhausted, emit the original
characters unchanged; at the end append the remaining replacement
characters unchanged. -/
def preserve_case_mixed : List Char → List Char → List Char
  | [], rep => rep
  | c :: orig, [] => c :: preserve_case_mixed orig []
  | c :: orig, r :: rep => mixed_case_char c r :: preserve_case_mixed orig rep

/-- utils.preserve_case: the three whole-string case folds, else the
mixed-case loop. -/
def preserve_case (original replacement : List Char) : List Char :=
  if pyIsUpper original then pyUpper replacement
  else if pyIsLower original then pyLower replacement
  else if pyIsTitle original then pyTitle replacement
  else preserve_case_mixed original replacement

/-!
Structured file handlers (src/file_handlers.py). Parsed JSON and YAML
documents are modelled by the PyData type; the external parsers
(json.loads and yaml.safe_load) are modelled by an Option PyData
argument, None standing for the parse failure the source catches
(json.JSONDecodeError and yaml.YAMLError respectively). The external
serializers (json.dumps, yaml.dump and the Python str builtin) are
function parameters: no claim inspects serialized output. Python
exceptions that the source does not catch are modelled by the Except
monad.
-/

/-- Parsed JSON or YAML value. Dictionaries keep insertion order, as
Python dictionaries do. -/
inductive PyData where
  | pynull
  | pybool (b : Bool)
  | pyint (n : Int)
  | pystr (s : String)
  | pylist (xs : List PyData)
  | pydict (fields : List (String × PyData))

/-- Uncaught Python exception kinds reachable in the handlers. -/
inductive PyErr where
  | typeError
  | keyError
  | attributeError
deriving DecidableEq

/-- Value returned by JSONFileHandler.process: the manifest branches and
the fallback return a string, while the general branch returns the
transformed data structure itself (the source omits json.dumps there). -/
inductive PyValue where
  | str (s : String)
  | data (d : PyData)

/-- Python membership test (the in operator) as used on a parsed
document: key lookup on a dictionary, element equality on a list,
substring test on a string, TypeError on the other values. -/
def pyIn (key : String) : PyData → Except PyErr Bool
  | .pydict fs => .ok (fs.any (fun kv => kv.1 == key))
  | .pylist xs => .ok (xs.any (fun x => match x with | .pystr s => s == key | _ => false))
  | .pystr s => .ok (containsSeq key.data s.data)
  | _ => .error .typeError

/-- Python subscript read with a string key: dictionary lookup; a string
key applied to a list or string raises TypeError, as does subscripting a
scalar. -/
def pyGetItem (d : PyData) (key : String) : Except PyErr PyData :=
  match d with
  | .pydict fs =>
      match fs.find? (fun kv => kv.1 == key) with
      | some kv => .ok kv.2
      | none => .error .keyError
  | _ => .error .typeError

/-- Update or append a key in an insertion-ordered dictionary, as Python
subscript assignment does. -/
def dictSet (fs : List (String × PyData)) (k : String) (v : PyData) : List (String × PyData) :=
  if fs.any (fun kv => kv.1 == k) then
    fs.map (fun kv => if kv.1 == k then (kv.1, v) else kv)
  else fs ++ [(k, v)]

/-- Python subscript assignment with a string key: only a dictionary
accepts it; lists and strings raise TypeError. -/
def pySetItem (d : PyData) (k : String) (v : PyData) : Except PyErr PyData :=
  match d with
  | .pydict fs => .ok (.pydict (dictSet fs k v))
  | _ => .error .typeError

/-- Python dict.pop with a string key, returning the removed value and
the remaining dictionary; list.pop with a string raises TypeError and
scalars have no pop attribute. -/
def dictPop (d : PyData) (k : String) : Except PyErr (PyData × PyData) :=
  match d with
  | .pydict fs =>
      match fs.find? (fun kv => kv.1 == k) with
      | some kv => .ok (kv.2, .pydict (fs.filter (fun kv2 => !(kv2.1 == k))))
      | none => .error .keyError
  | .pylist _ => .error .typeError
  | _ => .error .attributeError

mutual
/-- JSONFileHandler._replace_in_json_data (lines 212-221): recursively
replace the old name in every string leaf, leaving keys and non-string
values untouched and preserving order. -/
def replace_in_json_data (old new : String) : PyData → PyData
  | .pydict fs => .pydict (replaceJsonFields old new fs)
  | .pylist xs => .pylist (replaceJsonList old new xs)
  | .pystr s => .pystr (strReplace s old new)
  | d => d

/-- List case of _replace_in_json_data. -/
def replaceJsonList (old new : String) : List PyData → List PyData
  | [] => []
  | x :: xs => replace_in_json_data old new x :: replaceJsonList old new xs

/-- Dictionary case of _replace_in_json_data: values are rewritten, keys
are kept. -/
def replaceJsonFields (old new : String) : List (String × PyData) → List (String × PyData)
  | [] => []
  | (k, v) :: fs => (k, replace_in_json_data old new v) :: replaceJsonFields old new fs
end

mutual
/-- YAMLFileHandler._replace_in_yaml_data (lines 265-274), a verbatim
duplicate of the JSON walker in the source. -/
def replace_in_yaml_data (old new : String) : PyData → PyData
  | .pydict fs => .pydict (replaceYamlFields old new fs)
  | .pylist xs => .pylist (replaceYamlList old new xs)
  | .pystr s => .pystr (strReplace s old new)
  | d => d

/-- List case of _replace_in_yaml_data. -/
def replaceYamlList (old new : String) : List PyData → List PyData
  | [] => []
  | x :: xs => replace_in_yaml_data old new x :: replaceYamlList old new xs

/-- Dictionary case of _replace_in_yaml_data. -/
def replaceYamlFields (old new : String) : List (String × PyData) → List (String × PyData)
  | [] => []
  | (k, v) :: fs => (k, replace_in_yaml_data old new v) :: replaceYamlFields old new fs
end

/-- JSONFileHandler._handle_package_json (lines 185-193): overwrite the
name field with the new name, replace inside the description string,
serialize. A parsed document that is not a dictionary raises TypeError
at the membership test or at the assignment; a non-string description
raises AttributeError at the replace call. -/
def handle_package_json (dumps : PyData → String) (old new : String) (data : PyData) : Except PyErr String := do
  let hasName ← pyIn "name" data
  let data1 ← if hasName then pySetItem data "name" (.pystr new) else pure data
  let hasDesc ← pyIn "description" data1
  let data2 ←
    if hasDesc then do
      let d ← pyGetItem data1 "description"
      match d with
      | .pystr s => pySetItem data1 "description" (.pystr (strReplace s old new))
      | _ => .error .attributeError
    else pure data1
  pure (dumps data2)

/-- JSONFileHandler._handle_config_json (lines 195-202): rewrite the
baseUrl entry of compilerOptions when it mentions the old name. The
source mutates the nested dictionary in place; the model rebuilds the
outer dictionary with the updated entry. The pystr parameter models the
Python str builtin applied to the baseUrl value. -/
def handle_config_json (dumps : PyData → String) (pystr : PyData → String) (old new : String) (data : PyData) : Except PyErr String := do
  let hasCO ← pyIn "compilerOptions" data
  if hasCO then do
    let opts ← pyGetItem data "compilerOptions"
    let hasBase ← pyIn "baseUrl" opts
    let cond ←
      if hasBase then do
        let b ← pyGetItem opts "baseUrl"
        pure (containsSeq old.data (pystr b).data)
      else pure false
    if cond then do
      let b ← pyGetItem opts "baseUrl"
      let opts2 ← pySetItem opts "baseUrl" (.pystr (strReplace (pystr b) old new))
      let data2 ← pySetItem data "compilerOptions" opts2
      pure (dumps data2)
    else pure (dumps data)
  else pure (dumps data)

/-- JSONFileHandler._handle_angular_json (lines 204-210): move the
projects entry keyed by the old name to the new name (pop then append),
serialize. -/
def handle_angular_json (dumps : PyData → String) (old new : String) (data : PyData) : Except PyErr String := do
  let hasProj ← pyIn "projects" data
  if hasProj then do
    let projects ← pyGetItem data "projects"
    let hasOld ← pyIn old projects
    if hasOld then do
      let popped ← dictPop projects old
      let projects2 ← pySetItem popped.2 new popped.1
      let data2 ← pySetItem data "projects" projects2
      pure (dumps data2)
    else pure (dumps data)
  else pure (dumps data)

/-- JSONFileHandler.process (lines 165-183): on parse failure
(json.JSONDecodeError, modelled by the None argument) fall back to plain
str.replace over the raw content; otherwise dispatch on the basename to
a manifest handler, and for every other file return the value of
_replace_in_json_data, which the source does not serialize. -/
def json_process (dumps : PyData → String) (pystr : PyData → String)
    (old new : String) (fileName : String) (parsed : Option PyData) (content : String) :
    Except PyErr PyValue :=
  match parsed with
  | none => .ok (.str (strReplace content old new))
  | some data =>
      if fileName = "package.json" then
        (handle_package_json dumps old new data).map PyValue.str
      else if fileName = "tsconfig.json" ∨ fileName = "jsconfig.json" then
        (handle_config_json dumps pystr old new data).map PyValue.str
      else if fileName = "angular.json" then
        (handle_angular_json dumps old new data).map PyValue.str
      else
        .ok (.data (replace_in_json_data old new data))

/-- YAMLFileHandler._handle_docker_compose (lines 249-255): move the
services entry keyed by the old name to the new name, serialize. -/
def handle_docker_compose (dump : PyData → String) (old new : String) (data : PyData) : Except PyErr String := do
  let hasServices ← pyIn "services" data
  if hasServices then do
    let services ← pyGetItem data "services"
    let hasOld ← pyIn old services
    if hasOld then do
      let popped ← dictPop services old
      let services2 ← pySetItem popped.2 new popped.1
      let data2 ← pySetItem data "services" services2
      pure (dump data2)
    else pure (dump data)
  else pure (dump data)

/-- YAMLFileHandler._handle_k8s_yaml (lines 257-263): when the metadata
name equals the old name, set it to the new name; serialize. -/
def handle_k8s_yaml (dump : PyData → String) (old new : String) (data : PyData) : Except PyErr String := do
  let hasMeta ← pyIn "metadata" data
  let cond ←
    if hasMeta then do
      let m ← pyGetItem data "metadata"
      pyIn "name" m
    else pure false
  if cond then do
    let m ← pyGetItem data "metadata"
    let nameVal ← pyGetItem m "name"
    let isOld := match nameVal with | .pystr s => s == old | _ => false
    if isOld then do
      let m2 ← pySetItem m "name" (.pystr new)
      let data2 ← pySetItem data "metadata" m2
      pure (dump data2)
    else pure (dump data)
  else pure (dump data)

/-- YAMLFileHandler.process (lines 230-247): on parse failure
(yaml.YAMLError, modelled by None) fall back to plain str.replace over
the raw content; otherwise sniff the raw content for docker-compose or
kubernetes markers and dispatch, else rewrite the string leaves and
serialize. -/
def yaml_process (dump : PyData → String) (old new : String)
    (parsed : Option PyData) (content : String) : Except PyErr String :=
  match parsed with
  | none => .ok (strReplace content old new)
  | some data =>
      let lowered := pyLower content.data
      if containsSeq "docker-compose".data lowered then
        handle_docker_compose dump old new data
      else if containsSeq "kubernetes".data lowered || containsSeq "k8s".data lowered then
        handle_k8s_yaml dump old new data
      else
        .ok (dump (replace_in_yaml_data old new data))

/-!
Python source handler (src/file_handlers.py lines 46-115,
PythonFileHandler). The relevant regex substitutions are embedded as
scanners over character lists. A generic driver reproduces re.sub: it
walks the text left to right; where the match function fires it emits
the computed replacement and resumes after the match, otherwise it
copies one character. The fuel argument (initialised with the text
length) makes the recursion structural; every match consumes at least
one character, so the fuel never runs out.
-/

/-- Consume a literal prefix, returning the remainder. -/
def dropLit : List Char → List Char → Option (List Char)
  | [], s => some s
  | _ :: _, [] => none
  | p :: ps, c :: cs => if p == c then dropLit ps cs else none

/-- Driver for re.sub: the match function returns the replacement text
and the remainder after the match. -/
def reSubAux (m : List Char → Option (List Char × List Char)) : Nat → List Char → List Char
  | _, [] => []
  | 0, s => s
  | fuel+1, c :: rest =>
      match m (c :: rest) with
      | some (rep, rem) => rep ++ reSubAux m fuel rem
      | none => c :: reSubAux m fuel rest

/-- Apply a regex substitution over a whole text. -/
def reSubG (m : List Char → Option (List Char × List Char)) (s : List Char) : List Char :=
  reSubAux m s.length s

/-- Lazy tail of the version pattern: consume characters up to the first
quote character (the non-greedy dot cannot cross a newline), returning
the remainder after that quote. -/
def takeToQuote : List Char → Option (List Char)
  | [] => none
  | c :: rest =>
      if isQuoteCh c then some rest
      else if c == '\n' then none
      else takeToQuote rest

/-- Replacement text of _handle_init_file for the version assignment:
the f-string producing a double-quoted new name. -/
def verRepl (newName : List Char) : List Char :=
  "__version__ = \"".data ++ newName ++ ['"']

/-- Matcher for the version pattern of _handle_init_file (line 85):
the literal __version__, then \s*, the equals sign, \s*, a quote
character, the lazy dot run and a closing quote character. The greedy
\s* runs need no backtracking because neither the equals sign nor a
quote is whitespace. The replacement ignores the match. -/
def versionMatch (newName : List Char) (s : List Char) : Option (List Char × List Char) :=
  match dropLit "__version__".data s with
  | none => none
  | some r1 =>
      match r1.dropWhile isPyWs with
      | '=' :: r3 =>
          match r3.dropWhile isPyWs with
          | q :: r5 =>
              if isQuoteCh q then
                match takeToQuote r5 with
                | some r6 => some (verRepl newName, r6)
                | none => none
              else none
          | [] => none
      | _ => none

/-- PythonFileHandler._handle_init_file (lines 82-92): rewrite every
version assignment, then replace the from-import of the old module by
the new one when present. -/
def handle_init_file (old new content : List Char) : List Char :=
  let c1 := reSubG (versionMatch new) content
  let fromOld := "from ".data ++ old
  if containsSeq fromOld c1 then
    pyReSub (fun a b => a == b) fromOld ("from ".data ++ new) c1
  else c1

/-- Matcher for the declaration patterns of _handle_definitions (lines
94-104): a keyword (class or def), \s+, the escaped old name and a word
boundary; the replacement is the keyword, one blank and the new name.
The greedy \s+ needs no backtracking and the trailing boundary test is
the word-character test on the next character, both exact for the
identifier-shaped names the tool is run with. -/
def kwDeclMatch (kw old new : List Char) (s : List Char) : Option (List Char × List Char) :=
  match dropLit kw s with
  | none => none
  | some r1 =>
      if (r1.takeWhile isPyWs).isEmpty then none
      else
        match dropLit old (r1.dropWhile isPyWs) with
        | none => none
        | some r3 =>
            match r3 with
            | [] => some (kw ++ ' ' :: new, [])
            | c :: _ => if isWordCh c then none else some (kw ++ ' ' :: new, r3)

/-- Matcher for the import patterns of process (lines 56-60 and
106-115): a keyword (import or from), \s+ and the old name up to a word
boundary. The callback _replace_python_import rewrites the match by
str.replace of the old name only when the match starts with the keyword
followed by one blank; a tab or newline inside \s+ leaves the match
unchanged. -/
def importLikeMatch (kw old new : List Char) (s : List Char) : Option (List Char × List Char) :=
  match dropLit kw s with
  | none => none
  | some r1 =>
      let ws := r1.takeWhile isPyWs
      if ws.isEmpty then none
      else
        match dropLit old (r1.dropWhile isPyWs) with
        | none => none
        | some r3 =>
            let matched := kw ++ ws ++ old
            let rep :=
              if matchesHere (fun a b => a == b) (kw ++ [' ']) matched then
                pyReSub (fun a b => a == b) old new matched
              else matched
            match r3 with
            | [] => some (rep, [])
            | c :: _ => if isWordCh c then none else some (rep, r3)

/-- PythonFileHandler.process (lines 52-80) for a given basename: the
init-file special case, then _handle_definitions (the class and def
substitutions), then the import and from patterns. The remaining two
patterns of the list (the __all__ pattern and the quoted-docstring
pattern) are the identity: their matches never start with the keyword
followed by a blank, so _replace_python_import returns every match
unchanged. -/
def python_process (old new : List Char) (fileName : String) (content : List Char) : List Char :=
  let c0 := if fileName = "__init__.py" then handle_init_file old new content else content
  let c1 := reSubG (kwDeclMatch "class".data old new) c0
  let c2 := reSubG (kwDeclMatch "def".data old new) c1
  let c3 := reSubG (importLikeMatch "import".data old new) c2
  reSubG (importLikeMatch "from".data old new) c3

/-!
Top-level run model: ProjectRenamer.rename_project (lines 245-283) with
create_backup (lines 229-243). The scan phase (scan_project) only reads
the tree, so its result is passed in as data; the logging sink is out of
scope of the specification, and the copy and rename system calls are
assumed to succeed. Filesystem mutations are recorded as an effect
trace; the Option Bool result is the return value, None standing for an
uncaught Python exception.
-/

/-- RenameConfig (src/project_renamer.py lines 25-59), restricted to the
scalar fields the run model reads. The source defaults are
backup_enabled = True, dry_run = False, case_sensitive = False,
preserve_case = False. -/
structure RenameConfig where
  old_name : String
  new_name : String
  project_path : String
  backup_enabled : Bool
  dry_run : Bool
  case_sensitive : Bool
  preserve_case : Bool

/-- Decision set computed by scan_project. -/
structure ScanResults where
  files_to_rename : List String
  directories_to_rename : List String
  files_to_modify : List String

/-- Filesystem mutations the run can perform. -/
inductive FsEffect where
  | copytree (backupDir : String)
  | renameFile (path : String)
  | renameDir (path : String)
  | writeFile (path : String)
deriving DecidableEq

/-- ProjectRenamer.rename_project: create_backup runs first (a full
copytree into the project whenever backup_enabled, regardless of
dry_run); the dry-run branch then returns before the mutation loops.
The live branch renames the listed files, then sorts the directory list
with key=len and reverse=True; len applied to a pathlib.Path raises
TypeError, so a nonempty directory list aborts the run with an uncaught
exception after the file renames. With an empty directory list the
content loop writes each file whose rewritten content differs, which the
contentChanged argument reports. -/
def rename_project (cfg : RenameConfig) (scan : ScanResults) (contentChanged : String → Bool) :
    List FsEffect × Option Bool :=
  let backupEffs : List FsEffect :=
    if cfg.backup_enabled then [.copytree (cfg.project_path ++ "/backup_timestamp")] else []
  if cfg.dry_run then (backupEffs, some true)
  else
    let fileEffs := scan.files_to_rename.map FsEffect.renameFile
    match scan.directories_to_rename with
    | [] =>
        let modEffs := (scan.files_to_modify.filter contentChanged).map FsEffect.writeFile
        (backupEffs ++ fileEffs ++ modEffs, some true)
    | _ :: _ => (backupEffs ++ fileEffs, none)

/-!
Supporting lemmas: arithmetic facts about the ASCII case maps, no-match
behaviour of the substitution scanners, and the shape of the mixed-case
loop.
-/

/-- Conversion of a valid code point round-trips through Char.ofNat. -/
theorem char_toNat_ofNat_valid (n : Nat) (h : n.isValidChar) : (Char.ofNat n).toNat = n := by
  simp [Char.ofNat, h, Char.ofNatAux, Char.toNat, UInt32.toNat]

/-- Characters with equal code points are equal. -/
theorem char_eq_of_toNat_eq {c d : Char} (h : c.toNat = d.toNat) : c = d := by
  have h2 := congrArg Char.ofNat h
  rwa [Char.ofNat_toNat, Char.ofNat_toNat] at h2

/-- Code point of the ASCII lowercase map. -/
theorem toNat_lowerCh (c : Char) :
    (lowerCh c).toNat = if 65 ≤ c.toNat ∧ c.toNat ≤ 90 then c.toNat + 32 else c.toNat := by
  unfold lowerCh
  by_cases h : 65 ≤ c.toNat ∧ c.toNat ≤ 90
  · rw [if_pos h, if_pos h, char_toNat_ofNat_valid _ (Or.inl (by omega))]
  · rw [if_neg h, if_neg h]

/-- Code point of the ASCII uppercase map. -/
theorem toNat_upperCh (c : Char) :
    (upperCh c).toNat = if 97 ≤ c.toNat ∧ c.toNat ≤ 122 then c.toNat - 32 else c.toNat := by
  unfold upperCh
  by_cases h : 97 ≤ c.toNat ∧ c.toNat ≤ 122
  · rw [if_pos h, if_pos h, char_toNat_ofNat_valid _ (Or.inl (by omega))]
  · rw [if_neg h, if_neg h]

/-- Uppercasing absorbs a preceding lowercasing. -/
theorem upperCh_lowerCh (c : Char) : upperCh (lowerCh c) = upperCh c := by
  apply char_eq_of_toNat_eq
  rw [toNat_upperCh, toNat_upperCh, toNat_lowerCh]
  split_ifs <;> omega

/-- Lowercasing is idempotent. -/
theorem lowerCh_lowerCh (c : Char) : lowerCh (lowerCh c) = lowerCh c := by
  apply char_eq_of_toNat_eq
  rw [toNat_lowerCh, toNat_lowerCh]
  split_ifs <;> omega

/-- Lowercasing absorbs a preceding uppercasing. -/
theorem lowerCh_upperCh (c : Char) : lowerCh (upperCh c) = lowerCh c := by
  apply char_eq_of_toNat_eq
  rw [toNat_lowerCh, toNat_lowerCh, toNat_upperCh]
  split_ifs <;> omega

/-- Lowercasing does not create or destroy separator characters. -/
theorem isSepCh_lowerCh (c : Char) : isSepCh (lowerCh c) = isSepCh c := by
  rw [Bool.eq_iff_iff]
  simp only [isSepCh, isPyWs, Bool.or_eq_true, decide_eq_true_eq, toNat_lowerCh]
  split_ifs with h <;> omega

/-- Lowercasing a whole string twice equals lowercasing once. -/
theorem pyLower_pyLower (s : List Char) : pyLower (pyLower s) = pyLower s := by
  induction s with
  | nil => rfl
  | cons c rest ih => simp only [pyLower, List.map_cons] at *; rw [lowerCh_lowerCh, ih]

/-- Lowercasing a capitalized string equals lowercasing the string. -/
theorem pyLower_pyCapitalize (s : List Char) : pyLower (pyCapitalize s) = pyLower s := by
  cases s with
  | nil => rfl
  | cons c rest =>
      show lowerCh (upperCh c) :: pyLower (pyLower rest) = lowerCh c :: pyLower rest
      rw [lowerCh_upperCh, pyLower_pyLower]

/-- Capitalizing a lowercased string equals capitalizing the string. -/
theorem pyCapitalize_pyLower (s : List Char) : pyCapitalize (pyLower s) = pyCapitalize s := by
  cases s with
  | nil => rfl
  | cons c rest =>
      show upperCh (lowerCh c) :: pyLower (pyLower rest) = upperCh c :: pyLower rest
      rw [upperCh_lowerCh, pyLower_pyLower]

/-- Lowercasing preserves freedom from separator characters. -/
theorem nosep_pyLower {s : List Char} (h : ∀ c ∈ s, isSepCh c = false) :
    ∀ c ∈ pyLower s, isSepCh c = false := by
  intro c hc
  rcases List.mem_map.mp hc with ⟨x, hx, rfl⟩
  rw [isSepCh_lowerCh]
  exact h x hx

/-- Splitting a separator-free string yields the single fragment. -/
theorem splitSepsAux_nosep {s : List Char} (h : ∀ c ∈ s, isSepCh c = false) :
    ∀ acc, splitSepsAux acc false s = [acc.reverse ++ s] := by
  induction s with
  | nil => intro acc; simp [splitSepsAux]
  | cons c rest ih =>
      intro acc
      have hc : isSepCh c = false := h c (by simp)
      have hrest : ∀ x ∈ rest, isSepCh x = false := fun x hx => h x (by simp [hx])
      simp [splitSepsAux, hc, ih hrest, List.reverse_cons, List.append_assoc]

/-- PascalCase of a separator-free string is its capitalization. -/
theorem to_pascal_case_nosep {s : List Char} (h : ∀ c ∈ s, isSepCh c = false) :
    to_pascal_case s = pyCapitalize s := by
  unfold to_pascal_case splitSeps
  rw [splitSepsAux_nosep h]
  simp

/-- The kebab collapse is the identity on separator-free strings. -/
theorem kebabAux_nosep {s : List Char} (h : ∀ c ∈ s, isSepCh c = false) :
    kebabAux false s = s := by
  induction s with
  | nil => rfl
  | cons c rest ih =>
      have hc : isSepCh c = false := h c (by simp)
      have hrest : ∀ x ∈ rest, isSepCh x = false := fun x hx => h x (by simp [hx])
      simp [kebabAux, hc, ih hrest]

/-- A nonempty pattern that matches nowhere substitutes nothing. -/
theorem reSubPat_of_not_occurs (eqc : Char → Char → Bool) (p : Char) (ps new : List Char) :
    ∀ s, occursIn eqc (p :: ps) s = false → reSubPat eqc (p :: ps) new 0 s = s := by
  intro s
  induction s with
  | nil => intro _; rfl
  | cons c rest ih =>
      intro h
      rw [occursIn, Bool.or_eq_false_iff] at h
      simp [reSubPat, h.1, ih h.2]

/-- A nonempty pattern that matches nowhere leaves pyReSub unchanged. -/
theorem pyReSub_noop (eqc : Char → Char → Bool) (pat new s : List Char)
    (hne : pat ≠ []) (h : occursIn eqc pat s = false) : pyReSub eqc pat new s = s := by
  cases pat with
  | nil => exact absurd rfl hne
  | cons p ps => exact reSubPat_of_not_occurs eqc p ps new s h

/-- A fold of substitutions whose patterns all miss the text leaves it
unchanged. -/
theorem foldl_pyReSub_noop (eqc : Char → Char → Bool) (new : List Char) :
    ∀ (pats : List (List Char)) (s : List Char),
      (∀ pat ∈ pats, pat ≠ [] ∧ occursIn eqc pat s = false) →
      pats.foldl (fun acc pat => pyReSub eqc pat new acc) s = s := by
  intro pats
  induction pats with
  | nil => intro s _; rfl
  | cons p ps ih =>
      intro s h
      have hp := h p (by simp)
      have h1 : pyReSub eqc p new s = s := pyReSub_noop eqc p new s hp.1 hp.2
      simp only [List.foldl_cons, h1]
      exact ih s (fun pat hm => h pat (by simp [hm]))

/-- Shape of the mixed-case loop: a position-wise zip of the common
prefix, then the leftover original characters, then the leftover
replacement characters (at most one leftover is nonempty). -/
theorem preserve_case_mixed_eq (o r : List Char) :
    preserve_case_mixed o r =
      List.zipWith mixed_case_char o r ++ o.drop r.length ++ r.drop o.length := by
  induction o generalizing r with
  | nil => simp [preserve_case_mixed]
  | cons c o ih =>
      cases r with
      | nil => simp [preserve_case_mixed, ih]
      | cons r rs => simp [preserve_case_mixed, ih]

/-- Dropping a literal prefix from itself plus a tail yields the tail. -/
theorem dropLit_append (p t : List Char) : dropLit p (p ++ t) = some t := by
  induction p with
  | nil => rfl
  | cons c cs ih => simp [dropLit, ih]

/-- The lazy quote scan stops exactly at the first quote character. -/
theorem takeToQuote_append (v : List Char) (q : Char) (t : List Char)
    (hq : isQuoteCh q = true) (hv : ∀ c ∈ v, isQuoteCh c = false ∧ (c == '\n') = false) :
    takeToQuote (v ++ q :: t) = some t := by
  induction v with
  | nil => simp [takeToQuote, hq]
  | cons c cs ih =>
      have h1 := hv c (by simp)
      simp [takeToQuote, h1.1, h1.2, ih (fun x hx => hv x (by simp [hx]))]

/-- A substitution whose match covers the whole text emits exactly the
replacement. -/
theorem reSubG_single (m : List Char → Option (List Char × List Char)) (c : Char)
    (rest rep : List Char) (h : m (c :: rest) = some (rep, [])) :
    reSubG m (c :: rest) = rep := by
  unfold reSubG
  simp [reSubAux, h]

/-!
Claim theorems.
-/

/-- C1: a dry run performs no filesystem mutation. The code violates
this: rename_project calls create_backup before testing dry_run, and
backup_enabled defaults to True, so a dry run with the default
configuration copies the whole project tree into a backup directory.
The theorem evaluates the run model at that configuration: the effect
trace of the dry run contains the copytree mutation and is not empty. -/
theorem dry_run_creates_backup :
    rename_project ⟨"old", "new", "proj", true, true, false, false⟩ ⟨[], [], []⟩ (fun _ => false)
      = ([FsEffect.copytree "proj/backup_timestamp"], some true) ∧
    ((rename_project ⟨"old", "new", "proj", true, true, false, false⟩ ⟨[], [], []⟩ (fun _ => false)).1).isEmpty = false :=
  ⟨rfl, rfl⟩

/-- C2: the claim states that _should_rename_directory returns true if
and only if the name equals the old name or matches it after snake_case
or PascalCase normalization. The code violates this: line 209 compares
the PascalCase form of the directory name with itself, so the predicate
returns true for every input; at old = abc, name = zzz it returns true
although none of the three stated comparisons holds. -/
theorem should_rename_directory_always_true :
    (∀ old_name name : List Char, should_rename_directory old_name name = true) ∧
    should_rename_directory "abc".data "zzz".data = true ∧
    ("zzz".data == "abc".data) = false ∧
    (to_snake_case "zzz".data == to_snake_case "abc".data) = false ∧
    (to_pascal_case "zzz".data == to_pascal_case "abc".data) = false := by
  refine ⟨?_, by decide, by decide, by decide, by decide⟩
  intro old_name name
  unfold should_rename_directory
  split_ifs with h1 h2 h3 <;> simp_all

/-- C3: the claim states that in a live run directories are renamed
deepest first. The code violates this: the sort key len is applied to
pathlib.Path values, which do not support len, so any live run with a
nonempty directory rename list raises TypeError before renaming a
single directory (the file renames before it have already mutated the
tree). The theorem evaluates the run model at such an input: the trace
holds the backup copy and the file rename, no directory rename, and the
run ends in the raised state. -/
theorem live_run_dir_sort_raises :
    rename_project ⟨"old", "new", "proj", true, false, false, false⟩
        ⟨["proj/old_file.py"], ["proj/old", "proj/old/sub"], []⟩ (fun _ => false)
      = ([FsEffect.copytree "proj/backup_timestamp", FsEffect.renameFile "proj/old_file.py"], none) :=
  rfl

/-- C4 counterexample: the claim states that the structured handlers
never raise. The JSON handler raises TypeError when the content parses
to a non-dictionary for a recognized manifest name: json.loads applied
to the text 5 yields the integer 5 (a successful parse), and the
membership test of _handle_package_json is then applied to an integer.
The serializer parameters are irrelevant on this path. -/
theorem json_process_package_json_raises :
    json_process (fun _ => "") (fun _ => "") "old" "new" "package.json" (some (.pyint 5)) "5"
      = .error .typeError :=
  rfl

/-- C4 as amended: whenever the content fails to parse in the handler
format (json.JSONDecodeError or yaml.YAMLError, modelled by the None
parse result), both structured handlers return, without raising, the
input content with every literal occurrence of the old name replaced by
the new name, for every serializer, name pair, basename and content. -/
theorem structured_fallback_replaces :
    ∀ (dumps pystr dump : PyData → String) (old new fname content : String),
      json_process dumps pystr old new fname none content = .ok (.str (strReplace content old new)) ∧
      yaml_process dump old new none content = .ok (strReplace content old new) :=
  fun _ _ _ _ _ _ _ => ⟨rfl, rfl⟩

/-- C5: _generate_new_name resolves names by exact match first, then
the lower, upper and title case folds, then the snake_case and
PascalCase comparisons, else returns the new name verbatim; in
particular my_old_project resolves through the snake_case branch to
my_new_project for the pair MyOldProject, MyNewProject. -/
theorem generate_new_name_precedence :
    (∀ old_name new_name original_name : List Char,
      generate_new_name old_name new_name original_name =
        if original_name = old_name then new_name
        else if pyLower original_name = pyLower old_name then pyLower new_name
        else if pyUpper original_name = pyUpper old_name then pyUpper new_name
        else if pyTitle original_name = pyTitle old_name then pyTitle new_name
        else if to_snake_case original_name = to_snake_case old_name then to_snake_case new_name
        else if to_pascal_case original_name = to_pascal_case old_name then to_pascal_case new_name
        else new_name) ∧
    generate_new_name "MyOldProject".data "MyNewProject".data "my_old_project".data = "my_new_project".data :=
  ⟨fun _ _ _ => rfl, by decide⟩

/-- C6 counterexample: the claim states that the rewrite is idempotent
whenever the old and new names differ and the new name does not contain
the old one as a substring. At old = abc, new = ABCd, text = abc both
side conditions hold, yet the case-insensitive patterns keep matching
inside the replacement: one rewrite yields ABCdddd and a second rewrite
yields ABCdddddddd. -/
theorem rewrite_not_idempotent :
    ("abc".data == "ABCd".data) = false ∧
    containsSeq "abc".data "ABCd".data = false ∧
    modify_file_content false "abc".data "ABCd".data "abc".data = "ABCdddd".data ∧
    modify_file_content false "abc".data "ABCd".data
        (modify_file_content false "abc".data "ABCd".data "abc".data) = "ABCdddddddd".data ∧
    ("ABCdddddddd".data == "ABCdddd".data) = false := by
  decide

/-- C6 as amended: the rewrite is idempotent on any text whose first
rewrite no longer matches any of the four compiled patterns (the old
name and its PascalCase, snake_case and kebab-case forms, under the
configured character comparison) and whose patterns are nonempty; in
general a rewrite may reintroduce matches and idempotence fails. -/
theorem rewrite_idempotent_once_settled (cs : Bool) (old new T : List Char)
    (h : ∀ pat ∈ compile_pattern_targets old,
        pat ≠ [] ∧ occursIn (chEq cs) pat (modify_file_content cs old new T) = false) :
    modify_file_content cs old new (modify_file_content cs old new T)
      = modify_file_content cs old new T :=
  foldl_pyReSub_noop (chEq cs) new (compile_pattern_targets old)
    (modify_file_content cs old new T) h

/-- C6 witness: at old = abc, new = xyz, text = abc the once-rewritten
text xyz matches no pattern, and the rewrite is idempotent there. -/
theorem rewrite_idempotent_once_settled_witness :
    (∀ pat ∈ compile_pattern_targets "abc".data,
        pat ≠ [] ∧ occursIn (chEq false) pat
          (modify_file_content false "abc".data "xyz".data "abc".data) = false) ∧
    modify_file_content false "abc".data "xyz".data
        (modify_file_content false "abc".data "xyz".data "abc".data)
      = modify_file_content false "abc".data "xyz".data "abc".data :=
  ⟨by decide, rewrite_idempotent_once_settled false "abc".data "xyz".data "abc".data (by decide)⟩

/-- C7: the claim states that for a parsed non-manifest JSON file the
handler returns a serialized JSON string. The code violates this: the
general branch returns the value of _replace_in_json_data itself, the
transformed data structure, without serializing it (the string leaves
are rewritten and the key order kept, but no json.dumps is applied, in
contradiction with the declared str return type). The theorem evaluates
the handler at such an input and exhibits the data-structure result. -/
theorem json_process_general_returns_data :
    json_process (fun _ => "") (fun _ => "") "old" "new" "data.json"
        (some (.pydict [("a", .pystr "old app")])) "\x7b\"a\": \"old app\"\x7d"
      = .ok (.data (.pydict [("a", .pystr "new app")])) :=
  rfl

/-- C8 counterexample: the claim states that in the mixed-case branch,
when the observed original is longer than the replacement, the trailing
original characters are dropped. The code appends them instead: for
original aBcd and replacement xy the result is xYcd, not xY. -/
theorem preserve_case_mixed_appends_not_drops :
    preserve_case "aBcd".data "xy".data = "xYcd".data ∧
    (preserve_case "aBcd".data "xy".data == "xY".data) = false := by
  decide

/-- C8 as amended: preserve_case folds the replacement to upper, lower
or title case after the corresponding whole-string test on the
original; otherwise it copies case position by position over the common
prefix and appends the leftover original characters unchanged (not
dropped) or the leftover replacement characters unchanged; in
particular the all-upper original MYOLDPROJECT maps myNewProject to
MYNEWPROJECT. -/
theorem preserve_case_characterization :
    (∀ original replacement : List Char,
      preserve_case original replacement =
        if pyIsUpper original then pyUpper replacement
        else if pyIsLower original then pyLower replacement
        else if pyIsTitle original then pyTitle replacement
        else List.zipWith mixed_case_char original replacement
              ++ original.drop replacement.length
              ++ replacement.drop original.length) ∧
    preserve_case "MYOLDPROJECT".data "myNewProject".data = "MYNEWPROJECT".data := by
  constructor
  · intro o r
    unfold preserve_case
    rw [preserve_case_mixed_eq]
  · decide

/-- C9 counterexample: the claim states the round trip
toPascalCase of toKebabCase of toPascalCase equals toPascalCase for
identifiers composed of alphanumeric words. It fails on the two-word
identifier my-old: the PascalCase form MyOld kebab-cases to myold
(the kebab converter only lowercases and collapses existing separators,
it does not split the PascalCase humps), which pascal-cases to Myold,
not MyOld. -/
theorem pascal_kebab_pascal_not_stable :
    (to_pascal_case (to_kebab_case (to_pascal_case "my-old".data))
        == to_pascal_case "my-old".data) = false ∧
    to_pascal_case (to_kebab_case (to_pascal_case "my-old".data)) = "Myold".data ∧
    to_pascal_case "my-old".data = "MyOld".data := by
  decide

/-- C9 as amended: the round trip holds for every single-word
identifier, that is for every string free of separator characters
(hyphen, underscore, whitespace), which covers the single alphanumeric
words; it fails for multi-word identifiers. -/
theorem pascal_kebab_pascal_single_word (s : List Char)
    (h : ∀ c ∈ s, isSepCh c = false) :
    to_pascal_case (to_kebab_case (to_pascal_case s)) = to_pascal_case s := by
  have hl : ∀ c ∈ pyLower s, isSepCh c = false := nosep_pyLower h
  rw [to_pascal_case_nosep h]
  have h2 : to_kebab_case (pyCapitalize s) = pyLower s := by
    unfold to_kebab_case
    rw [pyLower_pyCapitalize]
    exact kebabAux_nosep hl
  rw [h2, to_pascal_case_nosep hl, pyCapitalize_pyLower]

/-- C9 witness: the single word hello satisfies the separator-freedom
hypothesis and the round trip holds on it. -/
theorem pascal_kebab_pascal_single_word_witness :
    (∀ c ∈ "hello".data, isSepCh c = false) ∧
    to_pascal_case (to_kebab_case (to_pascal_case "hello".data)) = to_pascal_case "hello".data :=
  ⟨by decide, pascal_kebab_pascal_single_word "hello".data (by decide)⟩

/-- C10: for an init file whose content is a version assignment with an
arbitrary quoted literal (any characters except quotes and newlines,
which is the raw shape of a string literal), PythonFileHandler.process
rewrites the assignment to a double-quoted new project name, discarding
the original version text; the subsequent definition and import passes
leave the rewritten line unchanged. -/
theorem python_init_version_rewrite (v : List Char)
    (hv : ∀ c ∈ v, isQuoteCh c = false ∧ (c == '\n') = false) :
    python_process "oldproj".data "newproj".data "__init__.py"
        ("__version__ = ".data ++ squoteCh :: v ++ [squoteCh])
      = "__version__ = \"newproj\"".data := by
  have hmatch : versionMatch "newproj".data
      ("__version__ = ".data ++ squoteCh :: v ++ [squoteCh])
      = some (verRepl "newproj".data, []) := by
    show (match takeToQuote (v ++ [squoteCh]) with
          | some r6 => some (verRepl "newproj".data, r6)
          | none => none)
        = some (verRepl "newproj".data, [])
    rw [takeToQuote_append v squoteCh [] (by decide) hv]
  have hc1 : reSubG (versionMatch "newproj".data)
      ("__version__ = ".data ++ squoteCh :: v ++ [squoteCh])
      = verRepl "newproj".data :=
    reSubG_single (versionMatch "newproj".data) '_'
      ("_version__ = ".data ++ squoteCh :: v ++ [squoteCh]) (verRepl "newproj".data) hmatch
  have hinit : handle_init_file "oldproj".data "newproj".data
      ("__version__ = ".data ++ squoteCh :: v ++ [squoteCh])
      = "__version__ = \"newproj\"".data := by
    simp only [handle_init_file]
    rw [hc1]
    decide
  calc python_process "oldproj".data "newproj".data "__init__.py"
        ("__version__ = ".data ++ squoteCh :: v ++ [squoteCh])
      = reSubG (importLikeMatch "from".data "oldproj".data "newproj".data)
          (reSubG (importLikeMatch "import".data "oldproj".data "newproj".data)
            (reSubG (kwDeclMatch "def".data "oldproj".data "newproj".data)
              (reSubG (kwDeclMatch "class".data "oldproj".data "newproj".data)
                (handle_init_file "oldproj".data "newproj".data
                  ("__version__ = ".data ++ squoteCh :: v ++ [squoteCh]))))) := rfl
    _ = "__version__ = \"newproj\"".data := by rw [hinit]; decide

/-- C10 witness: the concrete version literal 1.0.0 satisfies the
hypothesis and the assignment is rewritten to the new name. -/
theorem python_init_version_rewrite_witness :
    (∀ c ∈ "1.0.0".data, isQuoteCh c = false ∧ (c == '\n') = false) ∧
    python_process "oldproj".data "newproj".data "__init__.py"
        ("__version__ = ".data ++ squoteCh :: "1.0.0".data ++ [squoteCh])
      = "__version__ = \"newproj\"".data :=
  ⟨by decide, python_init_version_rewrite "1.0.0".data (by decide)⟩
